import Mathlib

/-!
Verification of the FreeRTOS ARM Cortex-A9 port layer (vexpress-a9 build)
against its natural-language specification.

Shallow embedding of:
  - Source/portable/GCC/ARM_CA9/port.c   (critical sections, interrupt mask,
    tick handler, scheduler startup, initial stack frames, task-exit trap)
  - Source/portable/MemMang/heap_simple.c (bump allocator)
  - Source/include/FreeRTOSConfig.h       (configuration constants)
  - Source/main.c                         (vAssertCalled assertion hook)

Machine integers are modelled as Nat with explicit reductions mod 2^32
where an overflow can occur.  Memory-mapped hardware registers (the GIC
priority-mask register ICCPMR, the CPU-core IRQ-enable bit) are explicit
fields of a port-state record; debug UART printing in the C source has no
effect on any modelled state and is omitted.
-/

namespace FreeRTOSPort

/-! ## Configuration constants (FreeRTOSConfig.h and port.c) -/

/-- FreeRTOSConfig.h: configMAX_API_CALL_INTERRUPT_PRIORITY = 200. -/
def configMAX_API_CALL_INTERRUPT_PRIORITY : Nat := 200

/-- FreeRTOSConfig.h: configUNIQUE_INTERRUPT_PRIORITIES = 256. -/
def configUNIQUE_INTERRUPT_PRIORITIES : Nat := 256

/-- Modelled from the spec: portPRIORITY_SHIFT comes from portmacro.h, which is
not under src/.  With 256 unique interrupt priorities every priority bit is
implemented, so the 8-bit priority field is not shifted: the shift is 0. -/
def portPRIORITY_SHIFT : Nat := 0

/-- Modelled from the spec: portLOWEST_INTERRUPT_PRIORITY comes from
portmacro.h, which is not under src/.  It is the largest priority value,
configUNIQUE_INTERRUPT_PRIORITIES - 1 = 255. -/
def portLOWEST_INTERRUPT_PRIORITY : Nat := configUNIQUE_INTERRUPT_PRIORITIES - 1

/-- Modelled from the spec: portMAX_BINARY_POINT_VALUE comes from portmacro.h,
which is not under src/.  With 256 unique priorities all priority bits must be
pre-emption bits, so the lowest admissible binary-point setting is 0. -/
def portMAX_BINARY_POINT_VALUE : Nat := 0

/-- port.c: ulMaxAPIPriorityMask =
configMAX_API_CALL_INTERRUPT_PRIORITY << portPRIORITY_SHIFT. -/
def ulMaxAPIPriorityMask : Nat :=
  configMAX_API_CALL_INTERRUPT_PRIORITY <<< portPRIORITY_SHIFT

/-- port.c: portUNMASK_VALUE = 0xFF, written to ICCPMR to unmask all
(but the lowest) interrupt priority. -/
def portUNMASK_VALUE : Nat := 0xFF

/-- port.c: portNO_CRITICAL_NESTING = 0. -/
def portNO_CRITICAL_NESTING : Nat := 0

/-- port.c: portBINARY_POINT_BITS = 0x03. -/
def portBINARY_POINT_BITS : Nat := 0x03

/-- port.c: portAPSR_MODE_BITS_MASK = 0x1F. -/
def portAPSR_MODE_BITS_MASK : Nat := 0x1F

/-- port.c: portAPSR_USER_MODE = 0x10. -/
def portAPSR_USER_MODE : Nat := 0x10

/-- port.c: portMAX_8_BIT_VALUE = 0xFF. -/
def portMAX_8_BIT_VALUE : Nat := 0xFF

/-- port.c: portBIT_0_SET = 0x01. -/
def portBIT_0_SET : Nat := 0x01

/-- port.c: portINITIAL_SPSR = 0x1F (System mode, ARM mode, IRQ enabled,
FIQ enabled). -/
def portINITIAL_SPSR : Nat := 0x1F

/-- port.c: portTHUMB_MODE_BIT = 0x20. -/
def portTHUMB_MODE_BIT : Nat := 0x20

/-- port.c: portTHUMB_MODE_ADDRESS = 0x01. -/
def portTHUMB_MODE_ADDRESS : Nat := 0x01

/-- port.c: portFPU_REGISTER_WORDS = 32 * 2 + 1. -/
def portFPU_REGISTER_WORDS : Nat := 32 * 2 + 1

/-- Modulus of the 32-bit unsigned integer types (uint32_t, size_t). -/
def UINT32_MOD : Nat := 2 ^ 32

/-! ## Port-layer state

One record collects the process-wide variables of port.c together with the
two pieces of hardware state the port layer drives: the GIC priority-mask
register ICCPMR and the CPU-core IRQ-enable state (CPSID i / CPSIE i).
The field halted records that configASSERT failed and vAssertCalled took
over (vAssertCalled never returns, see assertLoopExits below).
The field timerPending models the tick timer peripheral's pending-interrupt
condition (read by no code in this layer; configCLEAR_TICK_INTERRUPT() is
defined to expand to nothing in FreeRTOSConfig.h). -/
structure PortState where
  /-- GIC ICCPMR priority-mask register (8-bit). -/
  iccpmr : Nat
  /-- CPU-core IRQs enabled (true unless between CPSID i and CPSIE i). -/
  cpuIrqOn : Bool
  /-- port.c: volatile uint32_t ulCriticalNesting. -/
  ulCriticalNesting : Nat
  /-- port.c: volatile uint32_t ulPortInterruptNesting. -/
  ulPortInterruptNesting : Nat
  /-- port.c: volatile uint32_t ulPortYieldRequired. -/
  ulPortYieldRequired : Bool
  /-- Tick timer peripheral: interrupt-pending condition. -/
  timerPending : Bool
  /-- A configASSERT failed and vAssertCalled halted the system. -/
  halted : Bool
deriving DecidableEq, Repr

/-! ## Interrupt mask operations (port.c) -/

/-- port.c ulPortSetInterruptMask: CPSID i; if ICCPMR already holds the
max-API-call mask return pdTRUE, else return pdFALSE and write the mask
(with DSB/ISB); CPSIE i.  Returns (pdTRUE/pdFALSE as 1/0, new state). -/
def ulPortSetInterruptMask (s : PortState) : Nat × PortState :=
  let sOff := { s with cpuIrqOn := false }
  if sOff.iccpmr == ulMaxAPIPriorityMask then
    (1, { sOff with cpuIrqOn := true })
  else
    (0, { sOff with iccpmr := ulMaxAPIPriorityMask, cpuIrqOn := true })

/-- port.c portCLEAR_INTERRUPT_MASK(): CPSID i; ICCPMR := portUNMASK_VALUE
(with DSB/ISB); CPSIE i. -/
def portCLEAR_INTERRUPT_MASK (s : PortState) : PortState :=
  { s with iccpmr := portUNMASK_VALUE, cpuIrqOn := true }

/-- port.c vPortClearInterruptMask: clear the mask only when the saved
value passed in is pdFALSE. -/
def vPortClearInterruptMask (ulNewMaskValue : Nat) (s : PortState) : PortState :=
  if ulNewMaskValue == 0 then portCLEAR_INTERRUPT_MASK s else s

/-! ## Critical section manager (port.c) -/

/-- port.c vPortEnterCritical: raise the mask via ulPortSetInterruptMask,
increment ulCriticalNesting (uint32), and if the count just became 1,
configASSERT(ulPortInterruptNesting == 0); a failed assert calls
vAssertCalled, which halts. -/
def vPortEnterCritical (s : PortState) : PortState :=
  let s1 := (ulPortSetInterruptMask s).2
  let s2 := { s1 with ulCriticalNesting := (s1.ulCriticalNesting + 1) % UINT32_MOD }
  if s2.ulCriticalNesting == 1 && s2.ulPortInterruptNesting != 0 then
    { s2 with halted := true }
  else
    s2

/-- port.c vPortExitCritical: only when ulCriticalNesting > 0, decrement it,
and when it reaches 0, portCLEAR_INTERRUPT_MASK(). -/
def vPortExitCritical (s : PortState) : PortState :=
  if s.ulCriticalNesting > portNO_CRITICAL_NESTING then
    let s1 := { s with ulCriticalNesting := s.ulCriticalNesting - 1 }
    if s1.ulCriticalNesting == portNO_CRITICAL_NESTING then
      portCLEAR_INTERRUPT_MASK s1
    else
      s1
  else
    s

/-- n consecutive calls to vPortEnterCritical. -/
def enterN : Nat → PortState → PortState
  | 0, s => s
  | n + 1, s => enterN n (vPortEnterCritical s)

/-- n consecutive calls to vPortExitCritical. -/
def exitN : Nat → PortState → PortState
  | 0, s => s
  | n + 1, s => exitN n (vPortExitCritical s)

/-! ## Tick handler (port.c FreeRTOS_Tick_Handler)

xTaskIncrementTick belongs to the external scheduler (tasks.c is not part
of this layer); its return value is a parameter tickResult.
configCLEAR_TICK_INTERRUPT() is defined in FreeRTOSConfig.h to expand to
nothing, so the final step of the handler changes no state. -/

/-- port.c FreeRTOS_Tick_Handler: CPSID i; ICCPMR := max-API-call mask
(DSB/ISB); CPSIE i; if xTaskIncrementTick() != pdFALSE then
ulPortYieldRequired := pdTRUE; portCLEAR_INTERRUPT_MASK();
configCLEAR_TICK_INTERRUPT() (a no-op in this configuration). -/
def FreeRTOS_Tick_Handler (tickResult : Bool) (s : PortState) : PortState :=
  let s1 := { s with iccpmr := ulMaxAPIPriorityMask, cpuIrqOn := true }
  let s2 := if tickResult then { s1 with ulPortYieldRequired := true } else s1
  portCLEAR_INTERRUPT_MASK s2

/-! ## The assertion hook (main.c vAssertCalled)

After printing diagnostics over the UART, vAssertCalled enters for(;;);.
The loop body is empty, so after any number of iterations it still has not
returned: assertLoopExits fuel says whether the loop has exited within
fuel iterations. -/

/-- main.c vAssertCalled's final for(;;); loop: it exits within no number
of iterations. -/
def assertLoopExits : Nat → Bool
  | 0 => false
  | n + 1 => assertLoopExits n

/-! ## Instruction-level traces

For the ordering claims, the mask-touching code paths of port.c are also
embedded as event traces: one event per CPU instruction or register access
that matters to the bracketing discipline (CPSID i / CPSIE i, DSB, ISB,
reads and writes of ICCPMR), plus markers for the tick handler's calls.
configCLEAR_TICK_INTERRUPT() expands to nothing, so it contributes no
event. -/

/-- Events emitted by port.c's mask-manipulating code paths. -/
inductive Ev where
  /-- CPSID i: disable CPU-core IRQs. -/
  | cpsid : Ev
  /-- CPSIE i: enable CPU-core IRQs. -/
  | cpsie : Ev
  /-- DSB memory barrier. -/
  | dsb : Ev
  /-- ISB instruction barrier. -/
  | isb : Ev
  /-- Write v to the GIC ICCPMR priority-mask register. -/
  | writePMR (v : Nat) : Ev
  /-- Read the GIC ICCPMR priority-mask register. -/
  | readPMR : Ev
  /-- Call into the external scheduler's xTaskIncrementTick. -/
  | callIncrementTick : Ev
  /-- Write pdTRUE to ulPortYieldRequired. -/
  | setYield : Ev
deriving DecidableEq, Repr

/-- port.c portCPU_IRQ_DISABLE(): CPSID i; DSB; ISB. -/
def cpuIrqDisableTr : List Ev := [.cpsid, .dsb, .isb]

/-- port.c portCPU_IRQ_ENABLE(): CPSIE i; DSB; ISB. -/
def cpuIrqEnableTr : List Ev := [.cpsie, .dsb, .isb]

/-- port.c portCLEAR_INTERRUPT_MASK(): disable; write portUNMASK_VALUE;
DSB; ISB; enable. -/
def clearMaskTr : List Ev :=
  cpuIrqDisableTr ++ [.writePMR portUNMASK_VALUE, .dsb, .isb] ++ cpuIrqEnableTr

/-- port.c ulPortSetInterruptMask as a trace, given the ICCPMR value found:
disable; read ICCPMR; write the mask (with DSB/ISB) only when it was not
already the max-API-call mask; enable. -/
def ulPortSetInterruptMaskTr (pmr : Nat) : List Ev :=
  cpuIrqDisableTr ++ [.readPMR]
    ++ (if pmr == ulMaxAPIPriorityMask then []
        else [.writePMR ulMaxAPIPriorityMask, .dsb, .isb])
    ++ cpuIrqEnableTr

/-- port.c vPortClearInterruptMask as a trace. -/
def vPortClearInterruptMaskTr (ulNewMaskValue : Nat) : List Ev :=
  if ulNewMaskValue == 0 then clearMaskTr else []

/-- port.c FreeRTOS_Tick_Handler as a trace, given xTaskIncrementTick's
result: disable; write the max-API-call mask; DSB; ISB; enable; call
xTaskIncrementTick; conditionally set ulPortYieldRequired; clear the mask;
configCLEAR_TICK_INTERRUPT() contributes nothing. -/
def tickHandlerTr (tickResult : Bool) : List Ev :=
  cpuIrqDisableTr ++ [.writePMR ulMaxAPIPriorityMask, .dsb, .isb] ++ cpuIrqEnableTr
    ++ [.callIncrementTick]
    ++ (if tickResult then [.setYield] else [])
    ++ clearMaskTr

/-- Bracketing discipline checker.  State: off = CPU-core IRQs currently
disabled; okDisable = the disabling CPSID was immediately followed by DSB
then ISB; needEnable = an ICCPMR write has happened and the matching
CPSIE has not yet been seen.  Every ICCPMR write must occur with off and
okDisable set and be immediately followed by DSB then ISB, and a CPSIE
must follow before the trace ends. -/
def brackets : Bool → Bool → Bool → List Ev → Bool
  | _, _, needEnable, [] => !needEnable
  | _, _, needEnable, .cpsid :: .dsb :: .isb :: r => brackets true true needEnable r
  | _, _, needEnable, .cpsid :: r => brackets true false needEnable r
  | _, _, _, .cpsie :: r => brackets false false false r
  | off, okDisable, _, .writePMR _ :: .dsb :: .isb :: r =>
      off && okDisable && brackets off okDisable true r
  | _, _, _, .writePMR _ :: _ => false
  | off, okDisable, needEnable, _ :: r => brackets off okDisable needEnable r

/-- A trace satisfies the write-bracketing discipline, starting outside any
CPU-core IRQ-disabled region. -/
def writesBracketed (tr : List Ev) : Bool := brackets false false false tr

/-! ## Startup sequencer (port.c xPortStartScheduler)

Hardware inputs are parameters: ucMaxPriorityRaw is the byte read back from
the first GIC priority register after writing 0xFF; apsr is the value read
from the APSR; iccbpr is the GIC binary-point register.
configASSERT is defined in FreeRTOSConfig.h, so the configASSERT_DEFINED
block runs (FreeRTOS.h, not under src/, defines configASSERT_DEFINED = 1
whenever configASSERT is defined).  vPortRestoreTaskContext lives in
portASM.S, not under src/; per the spec it performs one context restore
into the first task and never returns. -/

/-- Visible actions of the successful startup path. -/
inductive StartEv where
  /-- portCPU_IRQ_DISABLE(). -/
  | irqDisable : StartEv
  /-- configSETUP_TICK_INTERRUPT(): arm the tick source. -/
  | setupTick : StartEv
  /-- vPortRestoreTaskContext(): restore the first task's context. -/
  | restoreContext : StartEv
deriving DecidableEq, Repr

/-- How a call to xPortStartScheduler ends. -/
inductive StartOutcome where
  /-- A configASSERT failed: vAssertCalled halts, the call never returns. -/
  | assertHalt : StartOutcome
  /-- Control was handed to the first task; the call never returns. -/
  | started : StartOutcome
  /-- The function fell through and returned 0 to its caller. -/
  | returnedZero : StartOutcome
deriving DecidableEq, Repr

/-- port.c xPortStartScheduler's loop shifting the priority byte read back
from the GIC until bit 0 is set.  One step per shift; a uint8 needs at
most 8.  The C loop does not terminate when the value is 0: result none. -/
def shiftToBit0 : Nat → Nat → Option Nat
  | 0, _ => none
  | fuel + 1, v =>
      if v &&& portBIT_0_SET == portBIT_0_SET then some v
      else shiftToBit0 fuel (v >>> 1)

/-- port.c xPortStartScheduler.  Returns none when the priority-discovery
loop spins forever (readback 0), otherwise the emitted actions and the
outcome.  The privileged-mode check is a configASSERT (fatal on failure);
the binary-point check is a plain if with its configASSERT commented out,
so on failure the function falls through and returns 0.  All UART debug
printing and the debug stack/memory inspection on the success path are
omitted: they alter no modelled state, and on the success path control
still ends in code that never returns. -/
def xPortStartScheduler (ucMaxPriorityRaw apsr iccbpr : Nat) :
    Option (List StartEv × StartOutcome) :=
  match shiftToBit0 9 (ucMaxPriorityRaw % 256) with
  | none => none
  | some ucMaxPriorityValue =>
    if ucMaxPriorityValue != portLOWEST_INTERRUPT_PRIORITY then
      some ([], .assertHalt)
    else
      let ulAPSR := apsr &&& portAPSR_MODE_BITS_MASK
      if ulAPSR == portAPSR_USER_MODE then
        some ([], .assertHalt)
      else
        if iccbpr &&& portBINARY_POINT_BITS ≤ portMAX_BINARY_POINT_VALUE then
          some ([.irqDisable, .setupTick, .restoreContext], .started)
        else
          some ([], .returnedZero)

/-! ## Task context builder (port.c pxPortInitialiseStack)

Word-addressed memory is a function from word addresses to word values;
the builder performs exactly the sequence of stores of the C code, moving
the stack pointer downwards.  configUSE_TASK_FPU_SUPPORT = 1 in
FreeRTOSConfig.h, so the frame ends with a cleared FPU flag.
retAddr is the link-time address of the task-return trap: since
configTASK_RETURN_ADDRESS is not defined, portTASK_RETURN_ADDRESS is
prvTaskExitError. -/

/-- Word-addressed memory. -/
def Mem : Type := Nat → Nat

/-- Store one word. -/
def wr (m : Mem) (a v : Nat) : Mem := fun x => if x = a then v else m x

/-- port.c pxPortInitialiseStack: build the initial Saved Context Frame on
the stack whose top word address is top, for entry function address pxCode
and parameter value pvParameters; returns the written memory and the final
stack pointer (the lowest address written). -/
def pxPortInitialiseStack (m : Mem) (top pxCode pvParameters retAddr : Nat) :
    Mem × Nat :=
  let m := wr m top 0
  let m := wr m (top - 1) 0
  let m := wr m (top - 2) portINITIAL_SPSR
  let m := if pxCode &&& portTHUMB_MODE_ADDRESS != 0 then
             wr m (top - 2) (m (top - 2) ||| portTHUMB_MODE_BIT)
           else m
  let m := wr m (top - 3) pxCode
  let m := wr m (top - 4) retAddr          -- R14
  let m := wr m (top - 5) 0x12121212       -- R12
  let m := wr m (top - 6) 0x11111111       -- R11
  let m := wr m (top - 7) 0x10101010       -- R10
  let m := wr m (top - 8) 0x09090909       -- R9
  let m := wr m (top - 9) 0x08080808       -- R8
  let m := wr m (top - 10) 0x07070707      -- R7
  let m := wr m (top - 11) 0x06060606      -- R6
  let m := wr m (top - 12) 0x05050505      -- R5
  let m := wr m (top - 13) 0x04040404      -- R4
  let m := wr m (top - 14) 0x03030303      -- R3
  let m := wr m (top - 15) 0x02020202      -- R2
  let m := wr m (top - 16) 0x01010101      -- R1
  let m := wr m (top - 17) pvParameters    -- R0
  let m := wr m (top - 18) portNO_CRITICAL_NESTING
  let m := wr m (top - 19) 0               -- portNO_FLOATING_POINT_CONTEXT
  (m, top - 19)

/-- Result of restoring a Saved Context Frame. -/
structure RestoredContext where
  /-- The floating-point-context flag popped first. -/
  fpuFlag : Nat
  /-- The critical-nesting count restored into ulCriticalNesting. -/
  criticalNesting : Nat
  /-- Register R0, the first-argument slot. -/
  r0 : Nat
  /-- Register R14, the return-address slot. -/
  r14 : Nat
  /-- The program counter loaded by RFEIA. -/
  pc : Nat
  /-- The processor-status word (CPSR) loaded by RFEIA. -/
  cpsr : Nat
deriving DecidableEq, Repr

/-- Modelled from the spec: the context-restore routine
(portRESTORE_CONTEXT / vPortRestoreTaskContext in portASM.S) is not under
src/.  Per spec section 4.3 the restore path pops the floating-point flag,
skips the floating-point block (portFPU_REGISTER_WORDS words) only when
the flag is nonzero, pops the critical-nesting count, pops R0-R12 and R14,
and finally RFEIA loads the (PC, CPSR) pair from the two words above. -/
def portRESTORE_CONTEXT (m : Mem) (sp : Nat) : RestoredContext :=
  let fpuFlag := m sp
  let base := if fpuFlag != 0 then sp + 1 + portFPU_REGISTER_WORDS else sp + 1
  { fpuFlag := fpuFlag
    criticalNesting := m base
    r0 := m (base + 1)
    r14 := m (base + 14)
    pc := m (base + 15)
    cpsr := m (base + 16) }

/-! ## Task-exit trap (port.c prvTaskExitError) -/

/-- What a call to prvTaskExitError does. -/
structure ExitTrapResult where
  /-- configASSERT(ulPortInterruptNesting == ~0UL) failed and vAssertCalled
  halted the system. -/
  assertHookHalted : Bool
  /-- portDISABLE_INTERRUPTS() was reached. -/
  irqDisabled : Bool
  /-- The final for(;;) loop was reached. -/
  reachedLoop : Bool
  /-- The call returned to its caller. -/
  returns : Bool
deriving DecidableEq, Repr

/-- port.c prvTaskExitError: configASSERT(ulPortInterruptNesting == ~0UL);
portDISABLE_INTERRUPTS(); for(;;){}.  When ulPortInterruptNesting is not
0xFFFFFFFF the assertion fails and vAssertCalled halts before interrupts
are ever disabled; otherwise the trap disables interrupts and spins.
Neither path returns. -/
def prvTaskExitError (ulPortInterruptNesting : Nat) : ExitTrapResult :=
  if ulPortInterruptNesting != 0xFFFFFFFF then
    { assertHookHalted := true, irqDisabled := false, reachedLoop := false,
      returns := false }
  else
    { assertHookHalted := false, irqDisabled := true, reachedLoop := true,
      returns := false }

/-! ## Bump heap (heap_simple.c) -/

/-- FreeRTOSConfig.h: configTOTAL_HEAP_SIZE = 65 * 1024 bytes. -/
def configTOTAL_HEAP_SIZE : Nat := 65 * 1024

/-- heap_simple.c state: the bump index into the static ucHeap array. -/
structure HeapState where
  /-- static size_t xNextFreeByte. -/
  xNextFreeByte : Nat
deriving DecidableEq, Repr

/-- heap_simple.c pvPortMalloc.  size_t is 32 bits on this target, so the
alignment of xWantedSize and the bump additions reduce mod 2^32.  A
returned pointer is the byte index of the allocation inside ucHeap. -/
def pvPortMalloc (xWantedSize : Nat) (s : HeapState) : Option Nat × HeapState :=
  let xWantedSize :=
    if xWantedSize &&& 3 != 0 then
      ((xWantedSize + 4) % UINT32_MOD) &&& (UINT32_MOD - 4)
    else xWantedSize
  if (s.xNextFreeByte + xWantedSize) % UINT32_MOD ≤ configTOTAL_HEAP_SIZE then
    (some s.xNextFreeByte,
     { xNextFreeByte := (s.xNextFreeByte + xWantedSize) % UINT32_MOD })
  else
    (none, s)

/-- heap_simple.c vPortFree: memory cannot be freed in this scheme; the
heap state is untouched. -/
def vPortFree (pv : Option Nat) (s : HeapState) : HeapState := s

/-- heap_simple.c vPortInitialiseBlocks. -/
def vPortInitialiseBlocks : HeapState := { xNextFreeByte := 0 }

/-- heap_simple.c xPortGetFreeHeapSize. -/
def xPortGetFreeHeapSize (s : HeapState) : Nat :=
  configTOTAL_HEAP_SIZE - s.xNextFreeByte

/-- Rounding a size up to the next multiple of 4, in the words of the
claim; compared against the bit-masking computation of pvPortMalloc. -/
def roundUp4 (n : Nat) : Nat := ((n + 3) / 4) * 4

/-- Per-input behaviour of pvPortMalloc in the words of the claim: the
request is rounded up to the next multiple of 4; when the rounded request
fits in the remaining heap, the returned pointer is the current bump index
and the index advances by exactly the rounded size; otherwise the result
is NULL and the heap state is unchanged. -/
def mallocClaimHolds (sz : Nat) (s : HeapState) : Prop :=
  if s.xNextFreeByte + roundUp4 sz ≤ configTOTAL_HEAP_SIZE then
    pvPortMalloc sz s =
      (some s.xNextFreeByte, { xNextFreeByte := s.xNextFreeByte + roundUp4 sz })
  else
    pvPortMalloc sz s = (none, s)

/-- A critical-section call: vPortEnterCritical or vPortExitCritical. -/
inductive CSOp where
  /-- A call to vPortEnterCritical. -/
  | enterOp : CSOp
  /-- A call to vPortExitCritical. -/
  | exitOp : CSOp
deriving DecidableEq, Repr

/-- Run a sequence of critical-section calls. -/
def runCS : List CSOp → PortState → PortState
  | [], s => s
  | .enterOp :: ops, s => runCS ops (vPortEnterCritical s)
  | .exitOp :: ops, s => runCS ops (vPortExitCritical s)

/-! ## Helper lemmas: critical-section manager -/

/-- As long as the assertion inside it cannot fire, vPortEnterCritical
raises the mask to the max-API-call value and increments the nesting
count, and changes nothing else. -/
lemma vPortEnterCritical_eq (s : PortState)
    (h : (s.ulCriticalNesting + 1) % UINT32_MOD = 1 → s.ulPortInterruptNesting = 0) :
    vPortEnterCritical s =
      { s with iccpmr := ulMaxAPIPriorityMask, cpuIrqOn := true,
               ulCriticalNesting := (s.ulCriticalNesting + 1) % UINT32_MOD } := by
  obtain ⟨pmr, irq, crit, intn, yld, tp, hl⟩ := s
  simp only [PortState.ulCriticalNesting, PortState.ulPortInterruptNesting] at h
  by_cases h1 : (crit + 1) % UINT32_MOD = 1
  · have hintn : intn = 0 := h h1
    subst hintn
    by_cases hp : pmr = ulMaxAPIPriorityMask <;>
      simp [vPortEnterCritical, ulPortSetInterruptMask, hp]
  · by_cases hp : pmr = ulMaxAPIPriorityMask <;>
      simp [vPortEnterCritical, ulPortSetInterruptMask, hp, h1]

/-- Entering n more times from nesting depth c (already inside a critical
section or not, interrupt nesting zero) just adds n to the count and
leaves the mask at the max-API-call value. -/
lemma enterN_add (n : Nat) : ∀ s : PortState,
    s.ulPortInterruptNesting = 0 →
    s.ulCriticalNesting + n < UINT32_MOD →
    enterN n s =
      { s with iccpmr := if n = 0 then s.iccpmr else ulMaxAPIPriorityMask,
               cpuIrqOn := if n = 0 then s.cpuIrqOn else true,
               ulCriticalNesting := s.ulCriticalNesting + n } := by
  induction n with
  | zero => intro s _ _; simp [enterN]
  | succ n ih =>
    intro s hi hlt
    have hstep := vPortEnterCritical_eq s (fun _ => hi)
    have hmod : (s.ulCriticalNesting + 1) % UINT32_MOD = s.ulCriticalNesting + 1 :=
      Nat.mod_eq_of_lt (by omega)
    rw [enterN, hstep, hmod]
    rw [ih _ (by simpa) (by simpa using (by omega : (s.ulCriticalNesting + 1) + n < UINT32_MOD))]
    obtain ⟨pmr, irq, crit, intn, yld, tp, hl⟩ := s
    by_cases hn : n = 0 <;> simp [hn] <;> omega

/-- Exiting exactly as many times as the current nesting depth clears the
count and fully unmasks. -/
lemma exitN_to_zero (n : Nat) : ∀ s : PortState,
    s.ulCriticalNesting = n + 1 →
    exitN (n + 1) s =
      { s with iccpmr := portUNMASK_VALUE, cpuIrqOn := true,
               ulCriticalNesting := 0 } := by
  induction n with
  | zero =>
    intro s hc
    simp [exitN, vPortExitCritical, portCLEAR_INTERRUPT_MASK, hc,
          portNO_CRITICAL_NESTING]
  | succ n ih =>
    intro s hc
    have hstep : vPortExitCritical s = { s with ulCriticalNesting := n + 1 } := by
      simp [vPortExitCritical, hc, portNO_CRITICAL_NESTING]
    rw [exitN, hstep, ih _ (by simp)]

/-! ## Claim C1 -/

/-- C1, counterexample: the claim quantifies over every interrupt-mask
state held before the call, but vPortExitCritical unconditionally writes
portUNMASK_VALUE (0xFF) when the nesting count returns to zero, so from a
task-context state whose ICCPMR holds 100 a balanced enter/exit pair of
depth 1 leaves the register at 0xFF, not bit-identical to 100. -/
theorem enter_exit_pair_cex :
    (exitN 1 (enterN 1 ⟨100, true, 0, 0, false, false, false⟩)).iccpmr ≠
      (⟨100, true, 0, 0, false, false, false⟩ : PortState).iccpmr := by
  decide

/-- C1, amended: when the priority-mask register is fully unmasked
(portUNMASK_VALUE, the only state in which task-level code runs) before
the first enter, a balanced sequence of n enters followed by n exits, for
every depth n from 1 up to any bound below 2^32, leaves the register
bit-identical to its prior value, with the nesting count back at zero and
no assertion triggered. -/
theorem enter_exit_balanced_restores_unmask (n : Nat) (s : PortState)
    (hn : 1 ≤ n) (hlt : n < UINT32_MOD)
    (hpmr : s.iccpmr = portUNMASK_VALUE)
    (hc : s.ulCriticalNesting = 0)
    (hi : s.ulPortInterruptNesting = 0) :
    (exitN n (enterN n s)).iccpmr = s.iccpmr ∧
    (exitN n (enterN n s)).ulCriticalNesting = 0 ∧
    (exitN n (enterN n s)).halted = s.halted := by
  obtain ⟨m, rfl⟩ : ∃ m, n = m + 1 := ⟨n - 1, by omega⟩
  have he := enterN_add (m + 1) s hi (by omega)
  rw [hc] at he
  simp only [Nat.add_eq, Nat.succ_ne_zero, if_neg (Nat.succ_ne_zero m)] at he
  rw [he, exitN_to_zero m _ (by simp [hc])]
  simp [hpmr]

/-- C1 witness: depth 8 from the concrete unmasked task-context state. -/
theorem enter_exit_balanced_restores_unmask_witness :
    (exitN 8 (enterN 8 ⟨255, true, 0, 0, false, false, false⟩)).iccpmr =
      (⟨255, true, 0, 0, false, false, false⟩ : PortState).iccpmr ∧
    (exitN 8 (enterN 8 ⟨255, true, 0, 0, false, false, false⟩)).ulCriticalNesting = 0 := by
  have h := enter_exit_balanced_restores_unmask 8 ⟨255, true, 0, 0, false, false, false⟩
    (by decide) (by norm_num [UINT32_MOD]) rfl rfl rfl
  exact ⟨h.1, h.2.1⟩

/-! ## Claim C2 -/

/-- C2, counterexample: the final step of FreeRTOS_Tick_Handler is
configCLEAR_TICK_INTERRUPT(), which FreeRTOSConfig.h defines to expand to
nothing, so a pending timer-interrupt condition is left pending: from a
state whose timer-pending bit is set, the handler does not clear it,
refuting the final conjunct of the claim. -/
theorem tick_handler_clears_timer_cex :
    (FreeRTOS_Tick_Handler false ⟨255, true, 0, 1, false, true, false⟩).timerPending ≠
      false := by
  decide

/-- C2, amended: on each invocation the tick handler raises the ICCPMR to
the max-API-call mask with CPU-core interrupts disabled and barriers
around the write, then calls xTaskIncrementTick, sets ulPortYieldRequired
exactly when that call returns nonzero (leaving it unchanged otherwise),
then fully clears the mask; the final step invokes the
configCLEAR_TICK_INTERRUPT hook, which this configuration defines as a
no-op, so the timer's own pending-interrupt condition is left unchanged. -/
theorem tick_handler_order_and_effect (r : Bool) (s : PortState) :
    (FreeRTOS_Tick_Handler r s).iccpmr = portUNMASK_VALUE ∧
    (FreeRTOS_Tick_Handler r s).ulPortYieldRequired
      = (r || s.ulPortYieldRequired) ∧
    (FreeRTOS_Tick_Handler r s).timerPending = s.timerPending ∧
    (FreeRTOS_Tick_Handler r s).ulCriticalNesting = s.ulCriticalNesting ∧
    (tickHandlerTr r).indexOf (Ev.writePMR ulMaxAPIPriorityMask)
      < (tickHandlerTr r).indexOf Ev.callIncrementTick ∧
    (tickHandlerTr r).indexOf Ev.callIncrementTick
      < (tickHandlerTr r).indexOf (Ev.writePMR portUNMASK_VALUE) ∧
    (r = true →
      Ev.setYield ∈ tickHandlerTr r ∧
      (tickHandlerTr r).indexOf Ev.callIncrementTick
        < (tickHandlerTr r).indexOf Ev.setYield ∧
      (tickHandlerTr r).indexOf Ev.setYield
        < (tickHandlerTr r).indexOf (Ev.writePMR portUNMASK_VALUE)) ∧
    (r = false → Ev.setYield ∉ tickHandlerTr r) ∧
    writesBracketed (tickHandlerTr r) = true := by
  cases r <;>
    refine ⟨?_, ?_, ?_, ?_, by decide, by decide, ?_, ?_, by decide⟩ <;>
    first
      | (intro h; first | decide | exact absurd h (by decide))
      | simp [FreeRTOS_Tick_Handler, portCLEAR_INTERRUPT_MASK]

/-- C2 witness: the tick-needs-switch case evaluated on a concrete
masked-raised state. -/
theorem tick_handler_order_and_effect_witness :
    (FreeRTOS_Tick_Handler true ⟨255, true, 0, 1, false, true, false⟩).iccpmr
      = portUNMASK_VALUE ∧
    (FreeRTOS_Tick_Handler true ⟨255, true, 0, 1, false, true, false⟩).ulPortYieldRequired
      = true ∧
    Ev.setYield ∈ tickHandlerTr true := by
  have h := tick_handler_order_and_effect true ⟨255, true, 0, 1, false, true, false⟩
  exact ⟨h.1, h.2.1, (h.2.2.2.2.2.2.1 rfl).1⟩

/-! ## Claim C3 -/

/-- C3, evaluation at the failing input: with the GIC priority readback
healthy (0xFF), the CPU in privileged System mode (APSR mode bits 0x1F)
and the binary-point register misconfigured (ICCBPR = 1, so not all
priority bits are pre-emption bits), xPortStartScheduler performs no
assertion and simply returns 0 to its caller: the configASSERT on the
binary point is commented out in port.c and replaced by a plain if with
no else.  By contrast a user-mode APSR (0x10) does end in the fatal
assertion, and with both preconditions satisfied the routine disables
CPU-core interrupts, arms the tick source and restores the first task's
context, never returning. -/
theorem start_scheduler_binary_point_not_asserted :
    xPortStartScheduler 0xFF 0x1F 1 = some ([], .returnedZero) ∧
    StartOutcome.returnedZero ≠ StartOutcome.assertHalt ∧
    xPortStartScheduler 0xFF 0x10 0 = some ([], .assertHalt) ∧
    xPortStartScheduler 0xFF 0x1F 0 =
      some ([.irqDisable, .setupTick, .restoreContext], .started) := by
  decide

/-! ## Helper lemmas: initial stack frames -/

/-- Restoring a freshly built initial frame yields exactly the values the
builder put in it. -/
lemma restore_initial_frame (m : Mem) (k pxCode param retAddr : Nat) :
    portRESTORE_CONTEXT (pxPortInitialiseStack m (k + 19) pxCode param retAddr).1
        (pxPortInitialiseStack m (k + 19) pxCode param retAddr).2
      = { fpuFlag := 0, criticalNesting := 0, r0 := param, r14 := retAddr,
          pc := pxCode,
          cpsr := if pxCode &&& portTHUMB_MODE_ADDRESS != 0 then
                    portINITIAL_SPSR ||| portTHUMB_MODE_BIT
                  else portINITIAL_SPSR } := by
  by_cases ht : pxCode &&& portTHUMB_MODE_ADDRESS != 0 <;>
    simp_arith [pxPortInitialiseStack, portRESTORE_CONTEXT, wr, ht,
          portNO_CRITICAL_NESTING]

/-- The R14 slot (top - 4) and the processor-status slot (top - 2) of a
freshly built initial frame. -/
lemma initFrame_slots (m : Mem) (k pxCode param retAddr : Nat) :
    ((pxPortInitialiseStack m (k + 19) pxCode param retAddr).1 (k + 15) = retAddr) ∧
    ((pxPortInitialiseStack m (k + 19) pxCode param retAddr).1 (k + 17)
       = if pxCode &&& portTHUMB_MODE_ADDRESS != 0 then
           portINITIAL_SPSR ||| portTHUMB_MODE_BIT
         else portINITIAL_SPSR) := by
  by_cases ht : pxCode &&& portTHUMB_MODE_ADDRESS != 0 <;>
    simp_arith [pxPortInitialiseStack, wr, ht]

/-! ## Claim C4 -/

/-- C4: for every stack top, entry address and parameter value, restoring
the initial frame built by pxPortInitialiseStack transfers control to
exactly the supplied entry address (the PC loaded by RFEIA), places the
parameter in the R0 first-argument slot, and carries a critical-nesting
value of zero (and no floating-point context) in the frame. -/
theorem initial_frame_restores_entry (m : Mem) (top pxCode param retAddr : Nat)
    (h : 19 ≤ top) :
    (portRESTORE_CONTEXT (pxPortInitialiseStack m top pxCode param retAddr).1
        (pxPortInitialiseStack m top pxCode param retAddr).2).pc = pxCode ∧
    (portRESTORE_CONTEXT (pxPortInitialiseStack m top pxCode param retAddr).1
        (pxPortInitialiseStack m top pxCode param retAddr).2).r0 = param ∧
    (portRESTORE_CONTEXT (pxPortInitialiseStack m top pxCode param retAddr).1
        (pxPortInitialiseStack m top pxCode param retAddr).2).criticalNesting = 0 ∧
    (portRESTORE_CONTEXT (pxPortInitialiseStack m top pxCode param retAddr).1
        (pxPortInitialiseStack m top pxCode param retAddr).2).fpuFlag = 0 := by
  obtain ⟨k, rfl⟩ : ∃ k, top = k + 19 := ⟨top - 19, by omega⟩
  rw [restore_initial_frame]
  exact ⟨rfl, rfl, rfl, rfl⟩

/-- C4 witness: a concrete frame at stack top 100 with entry 0x40000CC8
and parameter 0x77. -/
theorem initial_frame_restores_entry_witness :
    (portRESTORE_CONTEXT (pxPortInitialiseStack (fun _ => 0) 100 0x40000CC8 0x77 0xAB).1
        (pxPortInitialiseStack (fun _ => 0) 100 0x40000CC8 0x77 0xAB).2).pc
      = 0x40000CC8 ∧
    (portRESTORE_CONTEXT (pxPortInitialiseStack (fun _ => 0) 100 0x40000CC8 0x77 0xAB).1
        (pxPortInitialiseStack (fun _ => 0) 100 0x40000CC8 0x77 0xAB).2).r0 = 0x77 ∧
    (portRESTORE_CONTEXT (pxPortInitialiseStack (fun _ => 0) 100 0x40000CC8 0x77 0xAB).1
        (pxPortInitialiseStack (fun _ => 0) 100 0x40000CC8 0x77 0xAB).2).criticalNesting
      = 0 := by
  have h := initial_frame_restores_entry (fun _ => 0) 100 0x40000CC8 0x77 0xAB
    (by decide)
  exact ⟨h.1, h.2.1, h.2.2.1⟩

/-! ## Claim C5 -/

/-- C5: the processor-status word written into the initial frame (the word
at top - 2, the one RFEIA loads into the CPSR) is 0x1F — System mode, ARM
state, IRQ and FIQ enabled — with the Thumb bit 0x20 additionally set if
and only if the entry address has its low bit set. -/
theorem initial_frame_spsr (m : Mem) (top pxCode param retAddr : Nat)
    (h : 19 ≤ top) :
    (pxPortInitialiseStack m top pxCode param retAddr).1 (top - 2)
      = (if pxCode % 2 = 1 then portINITIAL_SPSR ||| portTHUMB_MODE_BIT
         else portINITIAL_SPSR) ∧
    portINITIAL_SPSR = 0x1F ∧
    portINITIAL_SPSR ||| portTHUMB_MODE_BIT = 0x3F := by
  obtain ⟨k, rfl⟩ : ∃ k, top = k + 19 := ⟨top - 19, by omega⟩
  have hs : k + 19 - 2 = k + 17 := by omega
  rw [hs, (initFrame_slots m k pxCode param retAddr).2]
  refine ⟨?_, rfl, rfl⟩
  have hand : pxCode &&& portTHUMB_MODE_ADDRESS = pxCode % 2 := by
    simp [portTHUMB_MODE_ADDRESS, Nat.and_one_is_mod]
  by_cases hp : pxCode % 2 = 1 <;> simp [hand, hp]

/-- C5 witness: a Thumb entry address (low bit set) and an ARM entry
address, both at stack top 19. -/
theorem initial_frame_spsr_witness :
    (pxPortInitialiseStack (fun _ => 0) 19 0x40000CC9 0x77 0xAB).1 17 = 0x3F ∧
    (pxPortInitialiseStack (fun _ => 0) 19 0x40000CC8 0x77 0xAB).1 17 = 0x1F := by
  have h1 := (initial_frame_spsr (fun _ => 0) 19 0x40000CC9 0x77 0xAB (by decide)).1
  have h2 := (initial_frame_spsr (fun _ => 0) 19 0x40000CC8 0x77 0xAB (by decide)).1
  norm_num at h1 h2
  exact ⟨h1, h2⟩

/-! ## Claim C6 -/

/-- C6: calling vPortEnterCritical while the interrupt-nesting counter is
nonzero, when the call takes the critical-nesting count to exactly 1
(that is, from count 0), fails the configASSERT inside it, and the
assertion hook vAssertCalled halts: its closing for(;;) loop has not
returned after any number of iterations. -/
theorem enter_critical_in_isr_asserts (s : PortState)
    (hi : s.ulPortInterruptNesting ≠ 0)
    (hc : s.ulCriticalNesting = 0) :
    (vPortEnterCritical s).halted = true ∧
    ∀ fuel, assertLoopExits fuel = false := by
  constructor
  · obtain ⟨pmr, irq, crit, intn, yld, tp, hl⟩ := s
    simp only [PortState.ulPortInterruptNesting] at hi
    simp only [PortState.ulCriticalNesting] at hc
    subst hc
    by_cases hp : pmr = ulMaxAPIPriorityMask <;>
      simp [vPortEnterCritical, ulPortSetInterruptMask, hp, UINT32_MOD, hi]
  · intro fuel
    induction fuel with
    | zero => rfl
    | succ n ih => simpa [assertLoopExits] using ih

/-- C6 witness: entering from interrupt-nesting depth 1 with the critical
count at zero halts in the assertion hook. -/
theorem enter_critical_in_isr_asserts_witness :
    (vPortEnterCritical ⟨255, true, 0, 1, false, false, false⟩).halted = true ∧
    assertLoopExits 1000 = false := by
  have h := enter_critical_in_isr_asserts ⟨255, true, 0, 1, false, false, false⟩
    (by decide) rfl
  exact ⟨h.1, h.2 1000⟩

/-! ## Claim C7 -/

/-- C7: vPortExitCritical decrements the critical-nesting counter exactly
when it is strictly positive; a call with the counter at zero leaves the
whole port state — counter and priority-mask register included —
unchanged; and under every sequence of enter/exit calls the counter,
read back as a mathematical integer, never becomes negative. -/
theorem exit_critical_never_negative :
    (∀ s : PortState, s.ulCriticalNesting = 0 → vPortExitCritical s = s) ∧
    (∀ s : PortState,
      (vPortExitCritical s).ulCriticalNesting =
        if 0 < s.ulCriticalNesting then s.ulCriticalNesting - 1
        else s.ulCriticalNesting) ∧
    (∀ (ops : List CSOp) (s : PortState),
      (0 : Int) ≤ ((runCS ops s).ulCriticalNesting : Int)) := by
  refine ⟨?_, ?_, ?_⟩
  · intro s h
    simp [vPortExitCritical, h, portNO_CRITICAL_NESTING]
  · intro s
    by_cases h : 0 < s.ulCriticalNesting
    · by_cases h1 : s.ulCriticalNesting - 1 = 0 <;>
        simp [vPortExitCritical, portNO_CRITICAL_NESTING, portCLEAR_INTERRUPT_MASK,
              h, h1]
    · simp [vPortExitCritical, portNO_CRITICAL_NESTING, Nat.not_lt.mp h, h]
  · intro ops s
    exact Int.ofNat_nonneg _

/-- C7 witness: an exit at counter zero is the identity on a concrete
state, and an exit at counter 2 decrements to 1. -/
theorem exit_critical_never_negative_witness :
    vPortExitCritical ⟨77, true, 0, 0, false, false, false⟩ =
      ⟨77, true, 0, 0, false, false, false⟩ ∧
    (vPortExitCritical ⟨200, true, 2, 0, false, false, false⟩).ulCriticalNesting = 1 := by
  refine ⟨exit_critical_never_negative.1 _ rfl, ?_⟩
  have h := exit_critical_never_negative.2.1 ⟨200, true, 2, 0, false, false, false⟩
  simpa using h

/-! ## Claim C8 -/

/-- C8: every ICCPMR write performed by this layer — in
ulPortSetInterruptMask (for every mask value found in the register), in
the clear-mask path shared by vPortExitCritical and
vPortClearInterruptMask (for every saved mask argument), and in the tick
handler (for either result of xTaskIncrementTick) — happens between a
CPSID i and a CPSIE i, with DSB and ISB barriers immediately after both
the disable and the register write, and with CPU-core interrupts
re-enabled before the code path ends, so no partially-applied mask update
is observable. -/
theorem pmr_writes_bracketed (pmr ulNewMaskValue : Nat) (r : Bool) :
    writesBracketed clearMaskTr = true ∧
    writesBracketed (ulPortSetInterruptMaskTr pmr) = true ∧
    writesBracketed (vPortClearInterruptMaskTr ulNewMaskValue) = true ∧
    writesBracketed (tickHandlerTr r) = true := by
  refine ⟨by decide, ?_, ?_, ?_⟩
  · by_cases hp : pmr == ulMaxAPIPriorityMask <;>
      simp only [writesBracketed, ulPortSetInterruptMaskTr, hp] <;> decide
  · by_cases hv : ulNewMaskValue == 0 <;>
      simp only [writesBracketed, vPortClearInterruptMaskTr, hv] <;> decide
  · cases r <;> decide

/-! ## Claim C9 -/

/-- C9, counterexample: with the interrupt-nesting counter at 0 — its
value whenever a task function returns — the asserted condition
ulPortInterruptNesting == ~0UL is false, so prvTaskExitError halts inside
the assertion hook before ever reaching portDISABLE_INTERRUPTS(): the
trap does not disable interrupts after routing through the hook, refuting
that conjunct of the claim (the trap still never returns). -/
theorem task_exit_trap_cex :
    (prvTaskExitError 0).irqDisabled = false ∧
    (prvTaskExitError 0).assertHookHalted = true ∧
    (prvTaskExitError 0).returns = false := by
  decide

/-- C9, amended: the R14 slot (top - 4) of every initial frame is
preloaded with portTASK_RETURN_ADDRESS — prvTaskExitError, since
configTASK_RETURN_ADDRESS is not defined — and that trap never returns
control: whenever the interrupt-nesting counter differs from 0xFFFFFFFF
(any reachable state) its configASSERT fails and the assertion hook halts
in its infinite loop without interrupts being disabled; the
disable-interrupts-and-spin code after the assertion runs only in the
unreachable case where the counter equals 0xFFFFFFFF, and no path
returns. -/
theorem task_exit_trap_never_returns :
    (∀ (m : Mem) (top pxCode param retAddr : Nat), 19 ≤ top →
      (pxPortInitialiseStack m top pxCode param retAddr).1 (top - 4) = retAddr) ∧
    (∀ n, (prvTaskExitError n).returns = false) ∧
    (∀ n, n ≠ 0xFFFFFFFF →
      (prvTaskExitError n).assertHookHalted = true ∧
      (prvTaskExitError n).irqDisabled = false) ∧
    (∀ fuel, assertLoopExits fuel = false) := by
  refine ⟨?_, ?_, ?_, ?_⟩
  · intro m top pxCode param retAddr h
    obtain ⟨k, rfl⟩ : ∃ k, top = k + 19 := ⟨top - 19, by omega⟩
    have hs : k + 19 - 4 = k + 15 := by omega
    rw [hs, (initFrame_slots m k pxCode param retAddr).1]
  · intro n
    by_cases h : n = 0xFFFFFFFF <;> simp [prvTaskExitError, h]
  · intro n h
    simp [prvTaskExitError, h]
  · intro fuel
    induction fuel with
    | zero => rfl
    | succ n ih => simpa [assertLoopExits] using ih

/-- C9 witness: the R14 slot of a concrete frame holds the trap address,
and the trap called at interrupt-nesting 0 halts in the hook. -/
theorem task_exit_trap_never_returns_witness :
    (pxPortInitialiseStack (fun _ => 0) 19 0x40000CC8 0x77 0xAB).1 15 = 0xAB ∧
    (prvTaskExitError 0).returns = false ∧
    (prvTaskExitError 0).assertHookHalted = true ∧
    assertLoopExits 1000 = false := by
  have h := task_exit_trap_never_returns
  exact ⟨h.1 (fun _ => 0) 19 0x40000CC8 0x77 0xAB (by decide), h.2.1 0,
    (h.2.2.1 0 (by decide)).1, h.2.2.2 1000⟩

/-! ## Helper lemmas: bump allocator -/

/-- Masking with 2^32 - 4 clears the two low bits of a 32-bit value. -/
lemma and_mask_clears_low2 (x : Nat) (hx : x < 2 ^ 32) :
    x &&& (UINT32_MOD - 4) = x / 4 * 4 := by
  have hrw : x / 4 * 4 = (x >>> 2) <<< 2 := by
    rw [Nat.shiftRight_eq_div_pow, Nat.shiftLeft_eq]
  rw [hrw]
  apply Nat.eq_of_testBit_eq
  intro i
  rw [Nat.testBit_and, Nat.testBit_shiftLeft, Nat.testBit_shiftRight]
  by_cases h32 : i < 32
  · by_cases h2 : 2 ≤ i
    · have hi : 2 + (i - 2) = i := by omega
      have hmask : (UINT32_MOD - 4).testBit i = true := by
        interval_cases i <;> decide
      simp [hmask, h2, hi]
    · have hmask : (UINT32_MOD - 4).testBit i = false := by
        interval_cases i <;> decide
      simp [hmask, h2]
  · have hxbit : x.testBit i = false :=
      Nat.testBit_lt_two_pow
        (lt_of_lt_of_le hx (Nat.pow_le_pow_right (by norm_num) (by omega)))
    have hi : 2 + (i - 2) = i := by omega
    simp [hi, hxbit]

/-- As long as the size_t addition sz + 4 does not wrap, pvPortMalloc's
bit-masking alignment equals rounding up to the next multiple of 4. -/
lemma aligned_eq_roundUp4 (sz : Nat) (h : sz + 4 < UINT32_MOD) :
    (if sz &&& 3 != 0 then ((sz + 4) % UINT32_MOD) &&& (UINT32_MOD - 4) else sz)
      = roundUp4 sz := by
  have h3 : sz &&& 3 = sz % 4 := by
    have h23 : (3 : Nat) = 2 ^ 2 - 1 := by norm_num
    rw [h23, Nat.and_pow_two_sub_one_eq_mod]
  by_cases hz : sz % 4 = 0
  · simp only [h3, hz, bne_self_eq_false, Bool.false_eq_true, if_false, roundUp4]
    omega
  · have hmod : (sz + 4) % UINT32_MOD = sz + 4 := Nat.mod_eq_of_lt h
    have hm := and_mask_clears_low2 (sz + 4) (by simpa [UINT32_MOD] using h)
    have hcond : (sz % 4 != 0) = true := by simpa using hz
    simp only [h3, hcond, if_true, hmod, hm, roundUp4]
    omega

/-- Away from size_t overflow, pvPortMalloc behaves exactly as the claim
describes. -/
lemma mallocClaim_of_no_overflow (sz : Nat) (s : HeapState)
    (h4 : sz + 4 < UINT32_MOD)
    (hfit : s.xNextFreeByte + roundUp4 sz < UINT32_MOD) :
    mallocClaimHolds sz s := by
  unfold mallocClaimHolds
  simp only [pvPortMalloc, aligned_eq_roundUp4 sz h4, Nat.mod_eq_of_lt hfit]
  by_cases hle : s.xNextFreeByte + roundUp4 sz ≤ configTOTAL_HEAP_SIZE
  · rw [if_pos hle, if_pos hle]
  · rw [if_neg hle, if_neg hle]

/-! ## Claim C10 -/

/-- C10, counterexample: size_t is 32 bits, so for the requested size
2^32 - 1 the alignment computation (sz + 4) & ~3 wraps to 0 instead of
rounding up to 2^32; from the fresh heap the rounded request cannot fit,
yet pvPortMalloc succeeds, returning the base pointer and advancing the
index by 0, so the claimed behaviour fails at this input. -/
theorem malloc_wrap_cex : ¬ mallocClaimHolds 4294967295 ⟨0⟩ := by
  unfold mallocClaimHolds
  decide

/-- C10, amended: for every requested size whose 4-byte rounding and fit
computation stay below 2^32 (no size_t wrap), pvPortMalloc rounds a
non-multiple of 4 up to the next multiple of 4, returns the current bump
index and advances it by exactly the rounded size when the rounded
request fits in the remaining heap, and returns NULL with the heap state
unchanged otherwise; under the same no-wrap conditions two consecutive
successful allocations are disjoint and end within the heap array;
vPortFree never modifies heap state, so xPortGetFreeHeapSize is unchanged
by any call to it. -/
theorem heap_bump_allocator_spec :
    (∀ (sz : Nat) (s : HeapState), sz + 4 < UINT32_MOD →
        s.xNextFreeByte + roundUp4 sz < UINT32_MOD → mallocClaimHolds sz s) ∧
    (∀ (sz1 sz2 p1 p2 : Nat) (s s1 s2 : HeapState),
        sz1 + 4 < UINT32_MOD → s.xNextFreeByte + roundUp4 sz1 < UINT32_MOD →
        sz2 + 4 < UINT32_MOD → s1.xNextFreeByte + roundUp4 sz2 < UINT32_MOD →
        pvPortMalloc sz1 s = (some p1, s1) →
        pvPortMalloc sz2 s1 = (some p2, s2) →
        p1 + roundUp4 sz1 ≤ p2 ∧ p2 + roundUp4 sz2 ≤ configTOTAL_HEAP_SIZE) ∧
    (∀ (pv : Option Nat) (s : HeapState), vPortFree pv s = s) ∧
    (∀ (pv : Option Nat) (s : HeapState),
        xPortGetFreeHeapSize (vPortFree pv s) = xPortGetFreeHeapSize s) := by
  refine ⟨mallocClaim_of_no_overflow, ?_, fun _ _ => rfl, fun _ _ => rfl⟩
  intro sz1 sz2 p1 p2 s s1 s2 h14 hf1 h24 hf2 hm1 hm2
  have hA1 := mallocClaim_of_no_overflow sz1 s h14 hf1
  unfold mallocClaimHolds at hA1
  by_cases hc1 : s.xNextFreeByte + roundUp4 sz1 ≤ configTOTAL_HEAP_SIZE
  · rw [if_pos hc1] at hA1
    have he1 := hm1.symm.trans hA1
    simp only [Prod.mk.injEq, Option.some.injEq] at he1
    obtain ⟨hp1, hs1⟩ := he1
    have hA2 := mallocClaim_of_no_overflow sz2 s1 h24 hf2
    unfold mallocClaimHolds at hA2
    by_cases hc2 : s1.xNextFreeByte + roundUp4 sz2 ≤ configTOTAL_HEAP_SIZE
    · rw [if_pos hc2] at hA2
      have he2 := hm2.symm.trans hA2
      simp only [Prod.mk.injEq, Option.some.injEq] at he2
      obtain ⟨hp2, _⟩ := he2
      subst hp1 hp2 hs1
      simp only [HeapState.xNextFreeByte] at hc2 ⊢
      exact ⟨Nat.le_refl _, hc2⟩
    · rw [if_neg hc2] at hA2
      have he2 := hm2.symm.trans hA2
      simp at he2
  · rw [if_neg hc1] at hA1
    have he1 := hm1.symm.trans hA1
    simp at he1

/-- C10 witness: a 5-byte request from the fresh heap rounds to 8 and
succeeds; an 8-byte request after it is disjoint; freeing changes
nothing. -/
theorem heap_bump_allocator_spec_witness :
    mallocClaimHolds 5 ⟨0⟩ ∧
    (0 + roundUp4 5 ≤ 8 ∧ 8 + roundUp4 8 ≤ configTOTAL_HEAP_SIZE) ∧
    vPortFree (some 0) ⟨16⟩ = ⟨16⟩ ∧
    xPortGetFreeHeapSize (vPortFree none ⟨16⟩) = xPortGetFreeHeapSize ⟨16⟩ := by
  refine ⟨heap_bump_allocator_spec.1 5 ⟨0⟩ (by decide) (by decide),
    heap_bump_allocator_spec.2.1 5 8 0 8 ⟨0⟩ ⟨8⟩ ⟨16⟩
      (by decide) (by decide) (by decide) (by decide) (by decide) (by decide),
    heap_bump_allocator_spec.2.2.1 (some 0) ⟨16⟩,
    heap_bump_allocator_spec.2.2.2 none ⟨16⟩⟩

end FreeRTOSPort


